import Mathlib

/-!
Verification of the device-session concurrency and identity-resolution
protocol of a camera-control module (src/andor.py): a shallow embedding of
the lock discipline of the `with_camera` decorator, the settings-update
logic, the acquisition state machine (enable / arm / abort / disable /
make_safe), and the per-device server startup sequence, together with
theorems settling the specification claims about them.
-/

/-! ## Definitions: shallow embedding of src/andor.py -/

/-- Events observable on the process-wide DLL lock and the current-camera
selector of the driver, in the order they happen inside `with_camera`. -/
inductive Ev where
  | acquire : Ev
  | release : Ev
  | select : Nat → Ev
  | invoke : Ev
  deriving DecidableEq

/-- State shared by all sessions in one process: whether `dll_lock` is held
(by anyone), whether the `has_lock` flag of this session is set, and the
current-camera selector of the driver. -/
structure LockSt where
  locked : Bool
  hasLock : Bool
  current : Nat
  deriving DecidableEq

/-- An operation run under `with_camera`: it may read and write the shared
state, returns a result or raises, and logs the events it performs. -/
def CamOp : Type := LockSt → (Except Unit Unit) × LockSt × List Ev

/-- The `except:` clause of `with_camera` (src lines 111-115): if `dll_lock`
is locked it is released and `has_lock` cleared, then the exception is
re-raised.  Note the clause does not consult `had_lock_on_entry`. -/
def exceptClause (s : LockSt) (t : List Ev) : (Except Unit Unit) × LockSt × List Ev :=
  if s.locked then
    (Except.error (), { s with locked := false, hasLock := false }, t ++ [Ev.release])
  else
    (Except.error (), s, t)

/-- Shallow embedding of the `with_camera` wrapper (src lines 100-124).
`single` is `self.singleton`, `handle` is `self.handle`, `selFails` says
whether the `SetCurrentCamera` call raises, and `op` is the wrapped
function body. -/
def with_camera (single : Bool) (handle : Nat) (selFails : Bool) (op : CamOp)
    (s : LockSt) : (Except Unit Unit) × LockSt × List Ev :=
  if single = false then
    let had_lock_on_entry := s.hasLock
    let s1 := if had_lock_on_entry = false then
                { s with locked := true, hasLock := true } else s
    let t1 : List Ev := if had_lock_on_entry = false then [Ev.acquire] else []
    if selFails then
      exceptClause s1 t1
    else
      let s2 := { s1 with current := handle }
      let t2 := t1 ++ [Ev.select handle]
      match op s2 with
      | (Except.error _, s3, t3) => exceptClause s3 (t2 ++ t3)
      | (Except.ok r, s3, t3) =>
        if s3.locked && !had_lock_on_entry then
          (Except.ok r, { s3 with locked := false, hasLock := false },
            t2 ++ t3 ++ [Ev.release])
        else
          (Except.ok r, s3, t2 ++ t3)
  else
    op s

/-- A primitive wrapped body: a single raw driver call that touches no lock
state, logs one `invoke` event, and raises exactly when `opFails`. -/
def primOp (opFails : Bool) : CamOp := fun s =>
  if opFails then (Except.error (), s, [Ev.invoke])
  else (Except.ok (), s, [Ev.invoke])

/-- Keys of the settings dictionary.  `exposureTime` and `EMGain` are the
keys with entries in `SETTERS` (src lines 48-51); `isWaterCooled` and
`targetTemperature` are consulted by `enable`; `other n` stands for any
further, unrecognized key. -/
inductive SKey where
  | exposureTime : SKey
  | EMGain : SKey
  | isWaterCooled : SKey
  | targetTemperature : SKey
  | other : Nat → SKey
  deriving DecidableEq

/-- A settings dictionary: an association list from keys to values. -/
abbrev Settings : Type := List (SKey × Int)

/-- Membership of a key in the `SETTERS` table (src lines 48-51). -/
def hasSetter : SKey → Bool
  | SKey.exposureTime => true
  | SKey.EMGain => true
  | _ => false

/-- Write one key in an association list, the way assignment to a Python
dict key behaves: replace the value if the key is present, append otherwise. -/
def setKey (m : Settings) (k : SKey) (v : Int) : Settings :=
  if (List.lookup k m).isSome then
    m.map (fun kv => if kv.1 = k then (k, v) else kv)
  else
    m ++ [(k, v)]

/-- The Python `dict.update` operation: every key of `incoming` is written into `base`
(src line 416, `self.settings.update(settings)`). -/
def dict_update (base incoming : Settings) : Settings :=
  incoming.foldl (fun m kv => setKey m kv.1 kv.2) base

/-- The domain a Python `for key in update_keys` loop can range over here:
the keys of both dictionaries, first occurrences kept. -/
def keyDomain (my their : Settings) : List SKey :=
  (my.map Prod.fst ++ their.map Prod.fst).dedup

/-- The `update_keys` set of `update_settings` on the incremental path
(src lines 405-412): `their_keys.union({key in my_keys ∩ their_keys with
self.settings[key] != settings[key]})`, written disjunct for disjunct. -/
def update_keys_incremental (my their : Settings) (k : SKey) : Bool :=
  (List.lookup k their).isSome ||
    ((List.lookup k my).isSome && (List.lookup k their).isSome &&
      !(List.lookup k my == List.lookup k their))

/-- The `update_keys` set of `update_settings` on the `init=True` path
(src line 404): the keys of `self.settings` as they stand before
`self.settings.update(settings)` runs. -/
def update_keys_init (my : Settings) (k : SKey) : Bool :=
  (List.lookup k my).isSome

/-- The setter invocations performed by the loop of `update_settings`
(src lines 417-426): one call per key of `update_keys` that has a `SETTERS`
entry, passing the post-merge value `self.settings[key]`; a key without a
`SETTERS` entry raises on tuple unpacking of `None`, which the bare
`except:` swallows, so it causes no call and no error. -/
def appliedSetters (init : Bool) (my their : Settings) : List (SKey × Int) :=
  let merged := dict_update my their
  ((keyDomain my their).filter
      (fun k => if init then update_keys_init my k
                else update_keys_incremental my their k)).filterMap
    (fun k => if hasSetter k then (List.lookup k merged).map (fun v => (k, v))
              else none)

/-- Driver-side hardware state touched by the operations under study. -/
structure Hw where
  emGain : Int
  exposure : Int
  outputAmp : Int
  acquiring : Bool
  shutterMode : Option (Int × Int × Int × Int)
  deriving DecidableEq

/-- The capability fields of `AndorCapabilities` consulted by `make_safe`:
whether `ulSetFunctions` has the `AC_SETFUNCTION_EMCCDGAIN` bit, and the
`ulCameraType` code. -/
structure Caps where
  hasEMGainFn : Bool
  cameraType : Nat
  deriving DecidableEq

/-- SDK camera-type code for the Clara. -/
def AC_CAMERATYPE_CLARA : Nat := 17

/-- SDK camera-type code for the iXon. -/
def AC_CAMERATYPE_IXON : Nat := 1

/-- SDK camera-type code for the iXon Ultra. -/
def AC_CAMERATYPE_IXONULTRA : Nat := 21

/-- SDK camera-type code for the Newton. -/
def AC_CAMERATYPE_NEWTON : Nat := 8

/-- The camera types for which `make_safe` switches to the conventional
amplifier (src lines 362-365). -/
def safeAmpCameraTypes : List Nat :=
  [AC_CAMERATYPE_CLARA, AC_CAMERATYPE_IXON, AC_CAMERATYPE_IXONULTRA,
    AC_CAMERATYPE_NEWTON]

/-- Session-side state of one `Camera` instance: the fields written by the
operations under study (src `__init__`, lines 189-221). -/
structure Cam where
  count : Nat
  enabled : Bool
  ready : Bool
  armed : Bool
  settings : Settings
  deriving DecidableEq

/-- The fresh-session state produced by `Camera.__init__` (src lines
189-221): zero exposures fetched, not enabled, not ready, not armed, empty
settings dictionary. -/
def camera_init : Cam := ⟨0, false, false, false, []⟩

/-- The state change of `Camera.__exit__` (src lines 174-186): `ShutDown`
is attempted with its failure swallowed, then `enabled`, `armed` and
`ready` are cleared. -/
def camera_exit (c : Cam) : Cam :=
  { c with enabled := false, armed := false, ready := false }

/-- Errors surfaced by the client operations: the readiness check of `arm`
(src line 234) versus a raw driver failure. -/
inductive CamErr where
  | notReady : CamErr
  | driver : CamErr
  deriving DecidableEq

/-- Shallow embedding of `abort` (src lines 226-228): `AbortAcquisition`
(raising exactly when `abortF`), then `ready := False`.  When the driver
call raises, `ready` keeps its previous value. -/
def abort (abortF : Bool) (c : Cam) (hw : Hw) : (Except CamErr Unit) × Cam × Hw :=
  if abortF then (Except.error CamErr.driver, c, hw)
  else (Except.ok (), { c with ready := false }, { hw with acquiring := false })

/-- Shallow embedding of `make_safe` (src lines 355-366): minimum EM gain
when the capability bit is set, then the conventional amplifier on the
supported camera types. -/
def make_safe (caps : Caps) (c : Cam) (hw : Hw) : Cam × Hw :=
  let hw1 := if caps.hasEMGainFn then { hw with emGain := 0 } else hw
  let hw2 := if safeAmpCameraTypes.contains caps.cameraType then
               { hw1 with outputAmp := 1 } else hw1
  (c, hw2)

/-- Shallow embedding of `disable` (src lines 251-262): `enabled := False`,
then `abort()` under `try/except: pass`, then `make_safe()`.  The function
is total: the only fallible step is the abort, whose failure is swallowed. -/
def disable (abortF : Bool) (caps : Caps) (c : Cam) (hw : Hw) : Cam × Hw :=
  let c1 := { c with enabled := false }
  match abort abortF c1 hw with
  | (Except.error _, c2, hw2) => make_safe caps c2 hw2
  | (Except.ok _, c2, hw2) => make_safe caps c2 hw2

/-- Driver status code `DRV_TEMP_STABILIZED` returned by `GetTemperature`. -/
def DRV_TEMP_STABILIZED : Nat := 20036

/-- Shallow embedding of `is_ready` (src lines 575-578): reads the
temperature status, recomputes and caches `self.ready`. -/
def is_ready (tempStatus : Nat) (c : Cam) : Bool × Cam :=
  let r := (tempStatus == DRV_TEMP_STABILIZED) && c.enabled
  (r, { c with ready := r })

/-- Driver calls a run of `arm` can perform, in order. -/
inductive DCall where
  | getTemperature : DCall
  | setShutter : Int → Int → Int → Int → DCall
  | startAcquisition : DCall
  deriving DecidableEq

/-- Shallow embedding of `arm` (src lines 232-247): readiness check (raising
`Camera not ready.` when false), `SetShutter(1, 1, 1, 1)`, reset of the
exposure counter and `armed := True`, then `StartAcquisition`.  `shutterF`
and `startF` say whether the two driver calls raise; the returned list
records the driver calls actually made. -/
def arm (tempStatus : Nat) (shutterF startF : Bool) (c : Cam) (hw : Hw) :
    (Except CamErr Unit) × Cam × Hw × List DCall :=
  let p := is_ready tempStatus c
  if p.1 = false then
    (Except.error CamErr.notReady, p.2, hw, [DCall.getTemperature])
  else if shutterF then
    (Except.error CamErr.driver, p.2, hw,
      [DCall.getTemperature, DCall.setShutter 1 1 1 1])
  else
    let hw1 := { hw with shutterMode := some (1, 1, 1, 1) }
    let c2 := { p.2 with count := 0, armed := true }
    if startF then
      (Except.error CamErr.driver, c2, hw1,
        [DCall.getTemperature, DCall.setShutter 1 1 1 1, DCall.startAcquisition])
    else
      (Except.ok (), c2, { hw1 with acquiring := true },
        [DCall.getTemperature, DCall.setShutter 1 1 1 1, DCall.startAcquisition])

/-- Effect on the hardware of invoking the `SETTERS` entry for a key with
the given value: `SetExposureTime` and `SetEMCCDGain` respectively. -/
def applySetter (hw : Hw) (k : SKey) (v : Int) : Hw :=
  match k with
  | SKey.exposureTime => { hw with exposure := v }
  | SKey.EMGain => { hw with emGain := v }
  | _ => hw

/-- The part of `update_settings` after the abort/initialize recovery (src
lines 401-433): compute `update_keys`, merge the incoming dictionary, run
the setter loop, then `set_fastest_vs_speed` (raising exactly when `vsF`),
and finally `enabled := True`.  The fourth component records the setter
invocations the loop performed. -/
def update_settings_body (vsF : Bool) (incoming : Settings) (init : Bool)
    (c : Cam) (hw : Hw) : (Except CamErr Bool) × Cam × Hw × List (SKey × Int) :=
  let applied := appliedSetters init c.settings incoming
  let c1 := { c with settings := dict_update c.settings incoming }
  let hw1 := applied.foldl (fun h kv => applySetter h kv.1 kv.2) hw
  if vsF then (Except.error CamErr.driver, c1, hw1, applied)
  else (Except.ok true, { c1 with enabled := true }, hw1, applied)

/-- Shallow embedding of `update_settings` (src lines 389-433): clear
`enabled`, attempt `abort` falling back to `Initialize` (raising exactly
when both `abortF` and `initF`), then the settings body. -/
def update_settings (abortF initF vsF : Bool) (incoming : Settings)
    (init : Bool) (c : Cam) (hw : Hw) :
    (Except CamErr Bool) × Cam × Hw × List (SKey × Int) :=
  let c0 := { c with enabled := false }
  match abort abortF c0 hw with
  | (Except.ok _, c1, hw1) => update_settings_body vsF incoming init c1 hw1
  | (Except.error _, c1, hw1) =>
      if initF then (Except.error CamErr.driver, c1, hw1, [])
      else update_settings_body vsF incoming init c1 hw1

/-- Failure oracle for one run of `enable` (src lines 266-319): one flag per
fallible driver step, in source order.  `usAbortF`, `usInitF` and `usVsF`
are the flags threaded into the inner `update_settings` call. -/
structure EnFails where
  abortF : Bool
  initF : Bool
  fanF : Bool
  setTempF : Bool
  coolerF : Bool
  usAbortF : Bool
  usInitF : Bool
  usVsF : Bool
  acqModeF : Bool
  trigF : Bool
  vsF : Bool
  deriving DecidableEq

/-- The steps of `enable` after its inner `update_settings` call has
returned (src lines 308-319): acquisition mode, trigger mode,
vertical-shift speed, then `enabled := True`; an exception from
`update_settings` itself propagates unchanged. -/
def enable_after_us (f : EnFails)
    (us : (Except CamErr Bool) × Cam × Hw × List (SKey × Int)) :
    (Except CamErr Bool) × Cam × Hw × List (SKey × Int) :=
  match us with
  | (Except.error e, c2, hw2, ap) => (Except.error e, c2, hw2, ap)
  | (Except.ok _, c2, hw2, ap) =>
    if f.acqModeF then (Except.error CamErr.driver, c2, hw2, ap)
    else if f.trigF then (Except.error CamErr.driver, c2, hw2, ap)
    else if f.vsF then (Except.error CamErr.driver, c2, hw2, ap)
    else (Except.ok true, { c2 with enabled := true }, hw2, ap)

/-- The part of `enable` after the abort/initialize recovery (src lines
279-319): detector and capability queries (pure), fan mode, optional
temperature set-point (only when `targetTemperature` is among the incoming
settings), cooler, the `update_settings(settings, init=True)` call, then
the post-settings steps. -/
def enable_body (f : EnFails) (incoming : Settings) (c : Cam) (hw : Hw) :
    (Except CamErr Bool) × Cam × Hw × List (SKey × Int) :=
  if f.fanF then (Except.error CamErr.driver, c, hw, [])
  else if (List.lookup SKey.targetTemperature incoming).isSome && f.setTempF then
    (Except.error CamErr.driver, c, hw, [])
  else if f.coolerF then (Except.error CamErr.driver, c, hw, [])
  else enable_after_us f
    (update_settings f.usAbortF f.usInitF f.usVsF incoming true c hw)

/-- Shallow embedding of `enable` (src lines 266-319): clear `enabled`,
attempt `abort` falling back to `Initialize` (raising exactly when both
`abortF` and `initF`), then the enable body. -/
def enable (f : EnFails) (incoming : Settings) (c : Cam) (hw : Hw) :
    (Except CamErr Bool) × Cam × Hw × List (SKey × Int) :=
  let c0 := { c with enabled := false }
  match abort f.abortF c0 hw with
  | (Except.ok _, c1, hw1) => enable_body f incoming c1 hw1
  | (Except.error _, c1, hw1) =>
      if f.initF then (Except.error CamErr.driver, c1, hw1, [])
      else enable_body f incoming c1 hw1

/-- Failure oracle with every driver step succeeding. -/
def allStepsOk : EnFails :=
  ⟨false, false, false, false, false, false, false, false, false, false, false⟩

/-- Failure oracle where only `SetTriggerMode` — a step after the
`update_settings(init=True)` call — raises. -/
def onlyTriggerFails : EnFails :=
  ⟨false, false, false, false, false, false, false, false, false, true, false⟩

/-- A sample hardware state. -/
def hw0 : Hw := ⟨0, 0, 0, false, none⟩

/-- A sample enabled, unarmed session with five exposures fetched. -/
def cam0 : Cam := ⟨5, true, false, false, []⟩

/-- A sample hardware state whose resting EM gain is 7. -/
def hwG : Hw := ⟨7, 0, 0, false, none⟩

/-- Failure oracle where only the `set_fastest_vs_speed` call inside the
inner `update_settings` — a step before the post-settings steps — raises. -/
def onlyUsVsFails : EnFails :=
  ⟨false, false, false, false, false, false, false, true, false, false, false⟩

/-- Events of a `CameraServer.serve` run, in the order the source performs
them (src lines 777-825). -/
inductive SEv where
  | enumerate : SEv
  | getHandle : Nat → SEv
  | setCurrent : Int → SEv
  | initCam : SEv
  | resolve : Int → SEv
  | bindEndpoint : Nat → Nat → SEv
  deriving DecidableEq

/-- The static serial→host table (src line 767); hosts are numeric codes,
with 0 standing for the loopback address. -/
def serial_to_host : List (Int × Nat) := [(9145, 0), (9146, 0)]

/-- The static serial→port table (src line 768). -/
def serial_to_port : List (Int × Nat) := [(9145, 7776), (9146, 7777)]

/-- Environment of one server process: how many devices the driver
enumerates, which handle each index yields, which serial a handle resolves
to once initialized, and whether `Initialize` raises. -/
structure ServeEnv where
  numCameras : Nat
  handleOf : Nat → Int
  serialOf : Int → Int
  initFails : Bool

/-- Shallow embedding of `CameraServer.serve` (src lines 777-825):
enumerate, reject an out-of-range index, get the handle, select it,
initialize, resolve the serial number, look the serial up in the host
table then the port table (raising when absent), and only then bind the
network endpoint.  The second component is the event trace of the run. -/
def serve (env : ServeEnv) (index : Nat) :
    (Except Unit (Int × Nat × Nat)) × List SEv :=
  if env.numCameras ≤ index then (Except.error (), [SEv.enumerate])
  else
    let handle := env.handleOf index
    if env.initFails then
      (Except.error (),
        [SEv.enumerate, SEv.getHandle index, SEv.setCurrent handle,
         SEv.initCam])
    else
      let serial := env.serialOf handle
      let t := [SEv.enumerate, SEv.getHandle index, SEv.setCurrent handle,
                SEv.initCam, SEv.resolve serial]
      match List.lookup serial serial_to_host with
      | none => (Except.error (), t)
      | some host =>
        match List.lookup serial serial_to_port with
        | none => (Except.error (), t)
        | some port =>
          (Except.ok (serial, host, port), t ++ [SEv.bindEndpoint host port])

/-- A sample server environment with two devices whose handles 100 and 101
resolve to the serials of the static tables. -/
def envSample : ServeEnv :=
  ⟨2, fun i => Int.ofNat (100 + i), fun h => if h = 100 then 9145 else 9146,
    false⟩

/-- Errors of the serial-number query: the not-ready failure raised before
initialization completes, versus any other driver failure. -/
inductive AndorError where
  | notReady : AndorError
  | driverError : AndorError
  deriving DecidableEq

/-- Modelled from the spec: the vendor SDK module `andorsdk` imported by
src/andor.py is not part of src/.  Per the spec the serial-number query is
valid only after `initialize()` and fails with `NotReadyError` if called
before initialization completes; accordingly the SDK call returns the
device serial once the owning session has completed initialization and
fails with the not-ready error otherwise. -/
def sdkGetCameraSerialNumber (initialized : Bool) (serial : Int) :
    Except AndorError Int :=
  if initialized then Except.ok serial else Except.error AndorError.notReady

/-- Shallow embedding of `get_camera_serial_number` (src lines 465-468): a
bare pass-through of the SDK call, with no local error handling, so the
SDK error is exactly what the caller sees. -/
def get_camera_serial_number (initialized : Bool) (serial : Int) :
    Except AndorError Int :=
  sdkGetCameraSerialNumber initialized serial

/-! ## Theorems -/

/-- Claim C1: a call through `with_camera` by a non-singleton session that
does not already hold the lock acquires the lock, selects the handle of
the session, invokes the operation, and releases the lock on every exit path:
on normal return and before the failure propagates when the selection call
or the operation raises. -/
theorem with_camera_exclusive_access (handle : Nat) (selFails opFails : Bool)
    (s : LockSt) (hnl : s.hasLock = false) :
    ((with_camera false handle selFails (primOp opFails) s).2.1.locked = false ∧
      (with_camera false handle selFails (primOp opFails) s).2.1.hasLock = false) ∧
    (selFails = false →
      (with_camera false handle selFails (primOp opFails) s).2.2 =
        [Ev.acquire, Ev.select handle, Ev.invoke, Ev.release] ∧
      (with_camera false handle selFails (primOp opFails) s).2.1.current = handle ∧
      (with_camera false handle selFails (primOp opFails) s).1 =
        (if opFails then Except.error () else Except.ok ())) ∧
    (selFails = true →
      (with_camera false handle selFails (primOp opFails) s).2.2 =
        [Ev.acquire, Ev.release] ∧
      (with_camera false handle selFails (primOp opFails) s).1 = Except.error ()) := by
  cases selFails <;> cases opFails <;>
    simp [with_camera, primOp, exceptClause, hnl]

/-- Witness for C1 at a concrete state and handle. -/
theorem with_camera_exclusive_access_witness :
    ((⟨false, false, 0⟩ : LockSt).hasLock = false) ∧
    (((with_camera false 7 false (primOp false) ⟨false, false, 0⟩).2.1.locked = false ∧
      (with_camera false 7 false (primOp false) ⟨false, false, 0⟩).2.1.hasLock = false) ∧
    (false = false →
      (with_camera false 7 false (primOp false) ⟨false, false, 0⟩).2.2 =
        [Ev.acquire, Ev.select 7, Ev.invoke, Ev.release] ∧
      (with_camera false 7 false (primOp false) ⟨false, false, 0⟩).2.1.current = 7 ∧
      (with_camera false 7 false (primOp false) ⟨false, false, 0⟩).1 =
        (if false then Except.error () else Except.ok ())) ∧
    (false = true →
      (with_camera false 7 false (primOp false) ⟨false, false, 0⟩).2.2 =
        [Ev.acquire, Ev.release] ∧
      (with_camera false 7 false (primOp false) ⟨false, false, 0⟩).1 = Except.error ())) :=
  ⟨rfl, with_camera_exclusive_access 7 false false ⟨false, false, 0⟩ rfl⟩

/-- Claim C2: a nested `with_camera` call that enters with `has_lock = true`
reuses the lock; on normal return the lock is indeed still held with
`has_lock` still true, but when the inner operation raises the `except:`
clause releases the lock and clears `has_lock` even though this call did not
acquire it — contradicting the claim for the raising exit path. -/
theorem with_camera_nested_raise_releases_lock :
    ((with_camera false 1 false (primOp false) ⟨true, true, 0⟩).2.1.locked = true ∧
     (with_camera false 1 false (primOp false) ⟨true, true, 0⟩).2.1.hasLock = true ∧
     (with_camera false 1 false (primOp false) ⟨true, true, 0⟩).2.2 =
       [Ev.select 1, Ev.invoke]) ∧
    ((with_camera false 1 false (primOp true) ⟨true, true, 0⟩).2.1.locked = false ∧
     (with_camera false 1 false (primOp true) ⟨true, true, 0⟩).2.1.hasLock = false) := by
  decide

/-- The incremental `update_keys` set collapses to all incoming keys: the
union of `their_keys` with a subset of itself is `their_keys`. -/
theorem update_keys_incremental_eq (my their : Settings) (k : SKey) :
    update_keys_incremental my their k = (List.lookup k their).isSome := by
  unfold update_keys_incremental
  cases h : (List.lookup k their).isSome <;> simp [h]

/-- Claim C3 fails on the code: on the incremental path (`init=False`) the
computed `update_keys` set is `their_keys.union(...)` with a subset of
`their_keys`, which is all incoming keys, so with last-applied
`(EMGain, 100)` and incoming `(EMGain, 100)` the `EMGain` setter is
invoked once on the unchanged value, where the claim (and the comment at
src line 406, `Only update new and changed values.`) requires zero
invocations; the unrecognized-key part of the claim does hold: an
unrecognized incoming key yields no error and no setter invocation. -/
theorem update_settings_reapplies_unchanged :
    (update_settings false false false [(SKey.EMGain, 100)] false
        ⟨0, true, false, false, [(SKey.EMGain, 100)]⟩ hw0).2.2.2 =
      [(SKey.EMGain, 100)] ∧
    (update_settings false false false [(SKey.other 0, 5)] false
        ⟨0, true, false, false, []⟩ hw0).1 = Except.ok true ∧
    (update_settings false false false [(SKey.other 0, 5)] false
        ⟨0, true, false, false, []⟩ hw0).2.2.2 = ([] : List (SKey × Int)) :=
  ⟨rfl, rfl, rfl⟩

/-- Claim C4 fails on the code: `enable` applies its settings through
`update_settings(settings, init=True)`, whose `init=True` path computes
`update_keys` from the keys of the last-applied dictionary before the
merge, so on a fresh session (empty last-applied settings) no incoming key
is applied at all — the hardware EM gain stays at its resting value 7
although `(EMGain, 5)` was passed — where the claim (and the comment at
src line 402, `Assume nothing about state: set everything.`) requires
every recognized incoming key to be applied; a recognized incoming key
absent from the last-applied map is skipped even when that map is
nonempty. -/
theorem update_settings_init_skips_new_keys :
    (enable allStepsOk [(SKey.EMGain, 5)] camera_init hwG).1 = Except.ok true ∧
    (enable allStepsOk [(SKey.EMGain, 5)] camera_init hwG).2.2.2 =
      ([] : List (SKey × Int)) ∧
    (enable allStepsOk [(SKey.EMGain, 5)] camera_init hwG).2.2.1.emGain = 7 ∧
    (update_settings false false false [(SKey.exposureTime, 2)] true
        ⟨0, true, false, false, [(SKey.EMGain, 3)]⟩ hw0).2.2.2 =
      [(SKey.EMGain, 3)] :=
  ⟨rfl, rfl, rfl, rfl⟩

/-- Claim C5: from any prior state, and whether or not the inner `abort()`
raises, `disable` terminates (it is a total function: the abort failure is
caught and nothing after it can raise), leaves `enabled` false, and puts
the hardware in the safe configuration — EM gain 0 exactly on hardware with
the EM-gain capability, conventional amplifier (code 1) exactly on the
supported camera types. -/
theorem disable_reaches_safe_state (abortF : Bool) (caps : Caps) (c : Cam) (hw : Hw) :
    (disable abortF caps c hw).1.enabled = false ∧
    (disable abortF caps c hw).2.emGain =
      (if caps.hasEMGainFn then 0 else hw.emGain) ∧
    (disable abortF caps c hw).2.outputAmp =
      (if safeAmpCameraTypes.contains caps.cameraType then 1 else hw.outputAmp) := by
  cases abortF <;> cases h : caps.hasEMGainFn <;>
    by_cases hc : caps.cameraType ∈ safeAmpCameraTypes <;>
      simp [disable, abort, make_safe, h, hc]

/-- Claim C6: when the readiness predicate is false — the temperature
status is not `DRV_TEMP_STABILIZED` or the session is not enabled — `arm`
fails with the not-ready error, makes no shutter call and no
acquisition-start call (the only driver call is the temperature query),
leaves the hardware untouched, and leaves the exposure counter and the
armed flag at their prior values. -/
theorem arm_not_ready_mutates_nothing (tempStatus : Nat) (shutterF startF : Bool)
    (c : Cam) (hw : Hw)
    (h : ((tempStatus == DRV_TEMP_STABILIZED) && c.enabled) = false) :
    (arm tempStatus shutterF startF c hw).1 = Except.error CamErr.notReady ∧
    (arm tempStatus shutterF startF c hw).2.2.2 = [DCall.getTemperature] ∧
    (arm tempStatus shutterF startF c hw).2.2.1 = hw ∧
    (arm tempStatus shutterF startF c hw).2.1.count = c.count ∧
    (arm tempStatus shutterF startF c hw).2.1.armed = c.armed := by
  simp [arm, is_ready, h]

/-- Witness for C6: a session that is enabled but whose temperature is not
stabilized. -/
theorem arm_not_ready_mutates_nothing_witness :
    ((((0 : Nat) == DRV_TEMP_STABILIZED) && (⟨4, true, true, true, []⟩ : Cam).enabled) = false) ∧
    ((arm 0 false false ⟨4, true, true, true, []⟩ ⟨0, 0, 0, false, none⟩).1 =
        Except.error CamErr.notReady ∧
     (arm 0 false false ⟨4, true, true, true, []⟩ ⟨0, 0, 0, false, none⟩).2.2.2 =
        [DCall.getTemperature] ∧
     (arm 0 false false ⟨4, true, true, true, []⟩ ⟨0, 0, 0, false, none⟩).2.2.1 =
        ⟨0, 0, 0, false, none⟩ ∧
     (arm 0 false false ⟨4, true, true, true, []⟩ ⟨0, 0, 0, false, none⟩).2.1.count =
        (⟨4, true, true, true, []⟩ : Cam).count ∧
     (arm 0 false false ⟨4, true, true, true, []⟩ ⟨0, 0, 0, false, none⟩).2.1.armed =
        (⟨4, true, true, true, []⟩ : Cam).armed) :=
  ⟨by decide, arm_not_ready_mutates_nothing 0 false false ⟨4, true, true, true, []⟩
    ⟨0, 0, 0, false, none⟩ (by decide)⟩

/-- Every run of `update_settings` either returns success (with `enabled`
set true) or raises a driver error leaving `enabled` false. -/
theorem update_settings_result (aF iF vF : Bool) (inc : Settings) (init : Bool)
    (c : Cam) (hw : Hw) :
    (update_settings aF iF vF inc init c hw).1 = Except.ok true ∨
      ((update_settings aF iF vF inc init c hw).1 = Except.error CamErr.driver ∧
        (update_settings aF iF vF inc init c hw).2.1.enabled = false) := by
  cases aF <;> cases iF <;> cases vF <;>
    simp [update_settings, update_settings_body, abort]

/-- No run of `update_settings` writes the `armed` flag. -/
theorem update_settings_armed (aF iF vF : Bool) (inc : Settings) (init : Bool)
    (c : Cam) (hw : Hw) :
    (update_settings aF iF vF inc init c hw).2.1.armed = c.armed := by
  cases aF <;> cases iF <;> cases vF <;>
    simp [update_settings, update_settings_body, abort]

/-- The post-settings steps preserve a success-or-disabled-error invariant
when none of them is the failing step. -/
theorem enable_after_us_result (f : EnFails)
    (us : (Except CamErr Bool) × Cam × Hw × List (SKey × Int))
    (hacq : f.acqModeF = false) (htrig : f.trigF = false) (hvs : f.vsF = false)
    (h : us.1 = Except.ok true ∨
      (us.1 = Except.error CamErr.driver ∧ us.2.1.enabled = false)) :
    (enable_after_us f us).1 = Except.ok true ∨
      ((enable_after_us f us).1 = Except.error CamErr.driver ∧
        (enable_after_us f us).2.1.enabled = false) := by
  obtain ⟨res, c2, hw2, ap⟩ := us
  cases res with
  | error e =>
    rcases h with h | ⟨h1, h2⟩
    · exact absurd h (by simp)
    · injection h1 with h1
      subst h1
      exact Or.inr ⟨rfl, h2⟩
  | ok b =>
    exact Or.inl (by simp [enable_after_us, hacq, htrig, hvs])

/-- The post-settings steps never write the `armed` flag. -/
theorem enable_after_us_armed (f : EnFails)
    (us : (Except CamErr Bool) × Cam × Hw × List (SKey × Int)) :
    (enable_after_us f us).2.1.armed = us.2.1.armed := by
  obtain ⟨res, c2, hw2, ap⟩ := us
  cases res with
  | error e => rfl
  | ok b =>
    cases hacq : f.acqModeF <;> cases htrig : f.trigF <;> cases hvs : f.vsF <;>
      simp [enable_after_us, hacq, htrig, hvs]

/-- Runs of `enable_body` from a disabled session either succeed or raise a
driver error leaving `enabled` false, provided none of the three
post-settings steps is the failing one. -/
theorem enable_body_result (f : EnFails) (inc : Settings) (c : Cam) (hw : Hw)
    (hacq : f.acqModeF = false) (htrig : f.trigF = false) (hvs : f.vsF = false)
    (hen : c.enabled = false) :
    (enable_body f inc c hw).1 = Except.ok true ∨
      ((enable_body f inc c hw).1 = Except.error CamErr.driver ∧
        (enable_body f inc c hw).2.1.enabled = false) := by
  unfold enable_body
  split_ifs with h1 h2 h3
  · exact Or.inr ⟨rfl, hen⟩
  · exact Or.inr ⟨rfl, hen⟩
  · exact Or.inr ⟨rfl, hen⟩
  · exact enable_after_us_result f _ hacq htrig hvs
      (update_settings_result f.usAbortF f.usInitF f.usVsF inc true c hw)

/-- No run of `enable_body` writes the `armed` flag. -/
theorem enable_body_armed (f : EnFails) (inc : Settings) (c : Cam) (hw : Hw) :
    (enable_body f inc c hw).2.1.armed = c.armed := by
  unfold enable_body
  split_ifs with h1 h2 h3
  · rfl
  · rfl
  · rfl
  · rw [enable_after_us_armed]
    exact update_settings_armed f.usAbortF f.usInitF f.usVsF inc true c hw

/-- Runs of `enable` either succeed or raise leaving `enabled` false,
provided none of the three post-settings steps is the failing one. -/
theorem enable_result (f : EnFails) (inc : Settings) (c : Cam) (hw : Hw)
    (hacq : f.acqModeF = false) (htrig : f.trigF = false) (hvs : f.vsF = false) :
    (enable f inc c hw).1 = Except.ok true ∨
      ((enable f inc c hw).1 = Except.error CamErr.driver ∧
        (enable f inc c hw).2.1.enabled = false) := by
  unfold enable
  cases haF : f.abortF
  · exact enable_body_result f inc _ _ hacq htrig hvs rfl
  · cases hiF : f.initF
    · exact enable_body_result f inc _ _ hacq htrig hvs rfl
    · exact Or.inr ⟨rfl, rfl⟩

/-- No run of `enable` writes the `armed` flag. -/
theorem enable_armed (f : EnFails) (inc : Settings) (c : Cam) (hw : Hw) :
    (enable f inc c hw).2.1.armed = c.armed := by
  unfold enable
  cases haF : f.abortF
  · exact enable_body_armed f inc _ _
  · cases hiF : f.initF
    · exact enable_body_armed f inc _ _
    · rfl

/-- Claim C9 fails on the code at two concrete inputs.  First, a failure of
`SetTriggerMode` inside `enable` happens after the inner
`update_settings(init=True)` call has already set `enabled = True`, so the
failed `enable` leaves the session enabled.  Second, a failure of
`StartAcquisition` inside `arm` happens after `armed` was set and the
exposure counter reset, so the failed `arm` changes both. -/
theorem enable_arm_failure_states_counterexample :
    ((enable onlyTriggerFails [] cam0 hw0).1 = Except.error CamErr.driver ∧
     (enable onlyTriggerFails [] cam0 hw0).2.1.enabled = true) ∧
    (cam0.armed = false ∧ cam0.count = 5 ∧
     (arm DRV_TEMP_STABILIZED false true cam0 hw0).1 = Except.error CamErr.driver ∧
     (arm DRV_TEMP_STABILIZED false true cam0 hw0).2.1.armed = true ∧
     (arm DRV_TEMP_STABILIZED false true cam0 hw0).2.1.count = 0) :=
  ⟨⟨rfl, rfl⟩, rfl, rfl, rfl, rfl, rfl⟩

/-- Claim C9, amended: a failed `enable()` leaves the session with
`enabled` false and the driver error reported to the caller, provided the
failing step is not one of the three post-settings steps (acquisition mode,
trigger mode, vertical-shift speed, which run after the inner
`update_settings` has set `enabled` true); a failed `arm()` leaves the
armed flag and the exposure counter at their prior values, provided the
failing step is not the acquisition start (which runs after both were
written). -/
theorem enable_arm_failure_states :
    (∀ (f : EnFails) (inc : Settings) (c : Cam) (hw : Hw),
      f.acqModeF = false → f.trigF = false → f.vsF = false →
      (enable f inc c hw).1 = Except.error CamErr.driver →
      (enable f inc c hw).2.1.enabled = false) ∧
    (∀ (ts : Nat) (sf : Bool) (c : Cam) (hw : Hw),
      (arm ts sf false c hw).1 ≠ Except.ok () →
      (arm ts sf false c hw).2.1.armed = c.armed ∧
      (arm ts sf false c hw).2.1.count = c.count) := by
  constructor
  · intro f inc c hw hacq htrig hvs herr
    rcases enable_result f inc c hw hacq htrig hvs with h | ⟨h1, h2⟩
    · rw [h] at herr
      exact absurd herr (by simp)
    · exact h2
  · intro ts sf c hw herr
    cases hr : ((ts == DRV_TEMP_STABILIZED) && c.enabled)
    · constructor <;> simp [arm, is_ready, hr]
    · cases sf
      · exfalso
        exact herr (by simp [arm, is_ready, hr])
      · constructor <;> simp [arm, is_ready, hr]

/-- Witness for the amended C9: a failure inside `update_settings` leaves a
failed `enable` disabled, and a not-ready failure of `arm` leaves `armed`
and the counter unchanged. -/
theorem enable_arm_failure_states_witness :
    (onlyUsVsFails.acqModeF = false ∧ onlyUsVsFails.trigF = false ∧
     onlyUsVsFails.vsF = false ∧
     (enable onlyUsVsFails [] cam0 hw0).1 = Except.error CamErr.driver ∧
     (enable onlyUsVsFails [] cam0 hw0).2.1.enabled = false) ∧
    ((¬(arm 0 false false cam0 hw0).1 = Except.ok ()) ∧
     (arm 0 false false cam0 hw0).2.1.armed = cam0.armed ∧
     (arm 0 false false cam0 hw0).2.1.count = cam0.count) :=
  ⟨⟨rfl, rfl, rfl, rfl,
    enable_arm_failure_states.1 onlyUsVsFails [] cam0 hw0 rfl rfl rfl rfl⟩,
   fun h => Except.noConfusion h,
   (enable_arm_failure_states.2 0 false cam0 hw0
     (fun h => Except.noConfusion h)).1,
   (enable_arm_failure_states.2 0 false cam0 hw0
     (fun h => Except.noConfusion h)).2⟩

/-- Claim C10: `disable` never writes the `armed` flag — it clears `enabled`
always and, when the inner abort succeeds, `ready` — so a session armed
before `disable` is still flagged armed afterwards; across the embedded
operations, `armed` is written true only by a successful `arm` (and by a
failed one only once past the shutter step), and written false only by
session construction and context-manager exit. -/
theorem disable_preserves_armed :
    (∀ (abortF : Bool) (caps : Caps) (c : Cam) (hw : Hw),
      (disable abortF caps c hw).1.armed = c.armed ∧
      (disable abortF caps c hw).1.enabled = false) ∧
    (∀ (caps : Caps) (c : Cam) (hw : Hw),
      (disable false caps c hw).1.ready = false) ∧
    (∀ (abortF : Bool) (c : Cam) (hw : Hw),
      (abort abortF c hw).2.1.armed = c.armed) ∧
    (∀ (aF iF vF : Bool) (inc : Settings) (init : Bool) (c : Cam) (hw : Hw),
      (update_settings aF iF vF inc init c hw).2.1.armed = c.armed) ∧
    (∀ (f : EnFails) (inc : Settings) (c : Cam) (hw : Hw),
      (enable f inc c hw).2.1.armed = c.armed) ∧
    (∀ (ts : Nat) (sf stf : Bool) (c : Cam) (hw : Hw),
      (arm ts sf stf c hw).2.1.armed =
        (if (((ts == DRV_TEMP_STABILIZED) && c.enabled) && !sf) = true then true
         else c.armed)) ∧
    camera_init.armed = false ∧
    (∀ c : Cam, (camera_exit c).armed = false) := by
  refine ⟨?_, ?_, ?_, ?_, ?_, ?_, rfl, fun c => rfl⟩
  · intro aF caps c hw
    cases aF <;> exact ⟨rfl, rfl⟩
  · intro caps c hw
    rfl
  · intro aF c hw
    cases aF <;> rfl
  · intro aF iF vF inc init c hw
    exact update_settings_armed aF iF vF inc init c hw
  · intro f inc c hw
    exact enable_armed f inc c hw
  · intro ts sf stf c hw
    cases hr : ((ts == DRV_TEMP_STABILIZED) && c.enabled) <;>
      cases sf <;> cases stf <;> simp [arm, is_ready, hr]

/-- Claim C7: whenever a `serve` run binds the network endpoint, the run
reached resolution first — the index was in range, initialization
succeeded, and the resolved serial was found in both static tables, the
bind parameters being exactly the looked-up host and port — and the bind
event is the last event of the trace, strictly after the resolve event;
conversely a failing run never has a bind event in its trace. -/
theorem serve_binds_only_after_resolution (env : ServeEnv) (index : Nat)
    (host port : Nat)
    (hb : SEv.bindEndpoint host port ∈ (serve env index).2) :
    index < env.numCameras ∧ env.initFails = false ∧
    List.lookup (env.serialOf (env.handleOf index)) serial_to_host = some host ∧
    List.lookup (env.serialOf (env.handleOf index)) serial_to_port = some port ∧
    (serve env index).1 =
      Except.ok (env.serialOf (env.handleOf index), host, port) ∧
    (serve env index).2 =
      [SEv.enumerate, SEv.getHandle index,
       SEv.setCurrent (env.handleOf index), SEv.initCam,
       SEv.resolve (env.serialOf (env.handleOf index)),
       SEv.bindEndpoint host port] := by
  by_cases hle : env.numCameras ≤ index
  · exact absurd hb (by simp [serve, hle])
  · by_cases hinit : env.initFails = true
    · exact absurd hb (by simp [serve, hle, hinit])
    · rw [Bool.not_eq_true] at hinit
      cases hhost : List.lookup (env.serialOf (env.handleOf index)) serial_to_host with
      | none => exact absurd hb (by simp [serve, hle, hinit, hhost])
      | some h0 =>
        cases hport : List.lookup (env.serialOf (env.handleOf index)) serial_to_port with
        | none => exact absurd hb (by simp [serve, hle, hinit, hhost, hport])
        | some p0 =>
          have hhp : host = h0 ∧ port = p0 := by
            have hmem := hb
            simp [serve, hle, hinit, hhost, hport] at hmem
            exact hmem
          obtain ⟨hh, hp⟩ := hhp
          subst hh
          subst hp
          exact ⟨Nat.not_le.mp hle, hinit, rfl, rfl,
            by simp [serve, hle, hinit, hhost, hport],
            by simp [serve, hle, hinit, hhost, hport]⟩

/-- Witness for C7: index 0 of the sample environment resolves serial 9145
and binds host 0, port 7776. -/
theorem serve_binds_only_after_resolution_witness :
    (SEv.bindEndpoint 0 7776 ∈ (serve envSample 0).2) ∧
    (0 < envSample.numCameras ∧ envSample.initFails = false ∧
     List.lookup (envSample.serialOf (envSample.handleOf 0)) serial_to_host =
       some 0 ∧
     List.lookup (envSample.serialOf (envSample.handleOf 0)) serial_to_port =
       some 7776 ∧
     (serve envSample 0).1 =
       Except.ok (envSample.serialOf (envSample.handleOf 0), 0, 7776) ∧
     (serve envSample 0).2 =
       [SEv.enumerate, SEv.getHandle 0,
        SEv.setCurrent (envSample.handleOf 0), SEv.initCam,
        SEv.resolve (envSample.serialOf (envSample.handleOf 0)),
        SEv.bindEndpoint 0 7776]) :=
  ⟨by decide, serve_binds_only_after_resolution envSample 0 0 7776 (by decide)⟩

/-- Claim C8: before initialization has completed, the serial-number query
fails with the not-ready error — not with a value and not with a different
error — and after initialization it returns the serial. -/
theorem get_camera_serial_number_before_init (serial : Int) :
    get_camera_serial_number false serial = Except.error AndorError.notReady ∧
    get_camera_serial_number true serial = Except.ok serial :=
  ⟨rfl, rfl⟩
